import Mathlib

/-!
Verification development for the Fit-Check virtual try-on client.

This file shallowly embeds the client-side change-staging, request-construction,
wardrobe-registry and response-classification layer of the repository:

* `handleApiResponse`, `categorizeGarment`, `validateInput`,
  `generateCompositeImage`, `dataUrlToParts` from the Gemini service module;
* the application state machine (`handleApplyChanges`, `hasPendingChanges`,
  `handleColorChange`, `handleGarmentCategorized`, `handleGarmentSelect`,
  `handlePendingChange`) from the staged-apply `App` component;
* the upload/categorization flow (`handleFileChange`) from the wardrobe panel
  and the free-text validation flow (`handleCustomSubmit`) from the scene panel.

Remote collaborators (the generative-image API, fetch/FileReader IO) are opaque
in the source; they are modelled as explicit parameters: the classifier takes the
raw response value, `categorizeGarment`/`validateInput` take the remote answer
text, the composite builder takes an image-fetch oracle, and the orchestrator
takes the awaited outcome of the remote call.  JavaScript string truthiness
(empty string is falsy) is modelled explicitly where the source relies on it.
-/

/-- JS `String.prototype.toLowerCase`, modelled character-wise so that it
evaluates inside proofs. -/
def jsToLower (s : String) : String := String.mk (s.toList.map Char.toLower)

/-- JS `String.prototype.trim`, modelled character-wise so that it evaluates
inside proofs: strip whitespace from both ends. -/
def jsTrim (s : String) : String :=
  String.mk (((s.toList.dropWhile Char.isWhitespace).reverse.dropWhile Char.isWhitespace).reverse)

/-- JS `String.prototype.split` restricted to a single-character separator,
modelled structurally over the character list so that it evaluates inside
proofs: `""` splits to `[""]`, and separators delimit (possibly empty)
segments. -/
def jsSplitChar (sep : Char) : List Char → List (List Char)
  | [] => [[]]
  | c :: rest =>
    let r := jsSplitChar sep rest
    if c = sep then [] :: r
    else
      match r with
      | h :: t => (c :: h) :: t
      | [] => [[c]]

/-- JS `split` on a string, one-character separator. -/
def jsSplit (s : String) (sep : Char) : List String :=
  (jsSplitChar sep s.toList).map String.mk

/-- JS truthiness of an optional string: present and non-empty. -/
def optTruthy (s : Option String) : Bool :=
  match s with
  | some v => decide (v ≠ "")
  | none => false

/-! ## Remote response shape (GenerateContentResponse) -/

/-- A media-type-tagged encoded image payload, as carried inside a response part. -/
structure InlineData where
  mimeType : String
  data : String
deriving DecidableEq

/-- One part of a candidate's content: possibly image-bearing, possibly text. -/
structure ResponsePart where
  inlineData : Option InlineData := none
  text : Option String := none
deriving DecidableEq

/-- A candidate's content: an optional list of parts. -/
structure Content where
  parts : Option (List ResponsePart) := none
deriving DecidableEq

/-- One candidate result of the remote generation call. -/
structure Candidate where
  content : Option Content := none
  finishReason : Option String := none
deriving DecidableEq

/-- The explicit content-block indicator attached to a blocked response. -/
structure PromptFeedback where
  blockReason : Option String := none
  blockReasonMessage : Option String := none
deriving DecidableEq

/-- The raw remote response consumed by `handleApiResponse`. -/
structure GenerateContentResponse where
  promptFeedback : Option PromptFeedback := none
  candidates : Option (List Candidate) := none
  text : Option String := none
deriving DecidableEq

/-- Outcome of `handleApiResponse`: the source returns a data URL on success and
throws an `Error` otherwise; the three throw sites are distinguished by their
message shape (blocked / refused / empty-fallback). -/
inductive ApiOutcome where
  | success (dataUrl : String)
  | blocked (message : String)
  | refused (message : String)
  | empty (message : String)
deriving DecidableEq

/-- `candidate.content?.parts?.find(part => part.inlineData)?.inlineData`:
the first image payload of one candidate, if any. -/
def candidateImage (c : Candidate) : Option InlineData :=
  match c.content with
  | none => none
  | some content =>
    match content.parts with
    | none => none
    | some parts =>
      match parts.find? (fun p => p.inlineData.isSome) with
      | some p => p.inlineData
      | none => none

/-- The response classifier (`handleApiResponse` in the service module):
block-indicator check, then image-part scan over all candidates, then
finish-reason inspection of the first candidate, then the empty/text fallback. -/
def handleApiResponse (response : GenerateContentResponse) : ApiOutcome :=
  let blockReason := response.promptFeedback.bind (fun pf => pf.blockReason)
  if optTruthy blockReason then
    ApiOutcome.blocked ("Request was blocked. Reason: " ++ blockReason.getD ("")
      ++ ". " ++ (response.promptFeedback.bind (fun pf => pf.blockReasonMessage)).getD (""))
  else
    match (response.candidates.getD []).findSome? candidateImage with
    | some d => ApiOutcome.success ("data:" ++ d.mimeType ++ ";base64," ++ d.data)
    | none =>
      let finishReason := (response.candidates.getD []).head?.bind (fun c => c.finishReason)
      match finishReason with
      | some fr =>
        if fr ≠ "" ∧ fr ≠ "STOP" then
          ApiOutcome.refused ("Image generation stopped unexpectedly. Reason: " ++ fr
            ++ ". This often relates to safety settings.")
        else
          ApiOutcome.empty (emptyMessage response)
      | none => ApiOutcome.empty (emptyMessage response)
where
  /-- The empty/text-fallback message of the final throw site. -/
  emptyMessage (response : GenerateContentResponse) : String :=
    let textFeedback := jsTrim (response.text.getD (""))
    "The AI model did not return an image. "
      ++ (if textFeedback ≠ "" then
            "The model responded with text: \"" ++ textFeedback ++ "\""
          else
            "This can happen due to safety filters or if the request is too complex. Please try a different image.")

/-! ## Data URL parsing and request parts -/

/-- The regex `:(.*?);` applied to the data-URL header: the capture is the text
between the first colon and the nearest following semicolon; no match when no
colon is followed by a semicolon. -/
def mimeMatch (header : String) : Option String :=
  match header.toList.dropWhile (fun c => decide (c ≠ ':')) with
  | [] => none
  | _ :: rest =>
    if rest.any (fun c => decide (c = ';')) then
      some (String.mk (rest.takeWhile (fun c => decide (c ≠ ';'))))
    else
      none

/-- `dataUrlToParts`: split on commas, require at least two segments, parse the
MIME type from the header segment; the data is the second segment. -/
def dataUrlToParts (dataUrl : String) : Except String (String × String) :=
  match jsSplit dataUrl ',' with
  | header :: data :: _ =>
    match mimeMatch header with
    | some m =>
      if m = "" then Except.error ("Could not parse MIME type from data URL")
      else Except.ok (m, data)
    | none => Except.error ("Could not parse MIME type from data URL")
  | _ => Except.error ("Invalid data URL")

/-- One part of the composite request payload: an inline image or a text segment. -/
inductive RequestPart where
  | inlineData (mimeType : String) (data : String)
  | text (s : String)
deriving DecidableEq

/-- `dataUrlToPart`: parse a data URL into an inline-image part. -/
def dataUrlToPart (dataUrl : String) : Except String RequestPart :=
  match dataUrlToParts dataUrl with
  | Except.ok (mimeType, data) => Except.ok (RequestPart.inlineData mimeType data)
  | Except.error e => Except.error e

/-! ## Composite request builder -/

/-- A garment argument to the composite builder: url, display name, optional
active-color override. -/
structure GarmentRef where
  url : String
  name : String
  activeColor : Option String := none
deriving DecidableEq

/-- The fixed preamble of the composite instruction block. -/
def compositePreamble : String :=
  "You are an expert virtual try-on AI. You will be given a \x27model image\x27 and potentially a \x27top garment\x27 and/or a \x27bottom garment\x27. Your task is to create a new photorealistic image with several modifications.\n\n**Crucial Rules:**\n1.  **Preserve the Model\x27s Identity:** The person\x27s face (unless expression is changed), hair, and unique features MUST be preserved.\n2.  **Output:** Return ONLY the final, edited image. Do not include any text.\n\n**Instructions:**\n"

/-- The labeled marker preceding the top garment image part. -/
def topGarmentMarker : String := "\n--- Top Garment Image --- \n"

/-- The labeled marker preceding the bottom garment image part. -/
def bottomGarmentMarker : String := "\n--- Bottom Garment Image --- \n"

/-- The apply-top instruction line. -/
def applyTopInstr : String :=
  "- **Apply Top Garment:** Realistically fit the \x27top garment\x27 onto the person. It should adapt to their pose with natural folds, shadows, and lighting. Replace any existing upper-body clothing.\n"

/-- The conditional top color-pinning line. -/
def topColorInstr (c : String) : String :=
  "  - **Top Color:** The final color of the top garment must be exactly this color: " ++ c ++ ". Maintain texture and lighting.\n"

/-- The apply-bottom instruction line. -/
def applyBottomInstr : String :=
  "- **Apply Bottom Garment:** Realistically fit the \x27bottom garment\x27 onto the person. Replace any existing lower-body clothing.\n"

/-- The conditional bottom color-pinning line. -/
def bottomColorInstr (c : String) : String :=
  "  - **Bottom Color:** The final color of the bottom garment must be exactly this color: " ++ c ++ ". Maintain texture and lighting.\n"

/-- The pose instruction line, naming the pose text verbatim. -/
def poseInstr (p : String) : String :=
  "- **Pose:** The model\x27s final pose must be: \"" ++ p ++ "\".\n"

/-- The conditional facial-expression line. -/
def expressionInstr (e : String) : String :=
  "- **Facial Expression:** Change the model\x27s facial expression to be convincingly \x27" ++ e ++ "\x27.\n"

/-- The background-replacement line. -/
def backgroundReplaceInstr (b : String) : String :=
  "- **Background:** Replace the entire background with a photorealistic scene of a \x27" ++ b ++ "\x27. The lighting on the model must match the new background.\n"

/-- The preserve-original-background line. -/
def backgroundPreserveInstr : String :=
  "- **Preserve Background:** The original background from the \x27model image\x27 MUST be preserved perfectly.\n"

/-- The garment portion of the instruction block, accumulated in source order:
preamble, then the conditional top instruction with its conditional color pin,
then the conditional bottom instruction with its conditional color pin. -/
def compositePromptGarments (top : Option GarmentRef) (bottom : Option GarmentRef) : String :=
  let prompt1 :=
    match top with
    | some t =>
      compositePreamble ++ applyTopInstr
        ++ (match t.activeColor with
            | some c => if c = "" then "" else topColorInstr c
            | none => "")
    | none => compositePreamble
  match bottom with
  | some b =>
    prompt1 ++ applyBottomInstr
      ++ (match b.activeColor with
          | some c => if c = "" then "" else bottomColorInstr c
          | none => "")
  | none => prompt1

/-- The instruction block up to the conditional expression line: garment
instructions, the pose line, and the expression line when the expression is a
truthy non-default value. -/
def compositePromptBody (poseInstruction : String)
    (top : Option GarmentRef) (bottom : Option GarmentRef)
    (expression : Option String) : String :=
  let prompt3 := compositePromptGarments top bottom ++ poseInstr poseInstruction
  match expression with
  | some e => if e ≠ "" ∧ e ≠ "Default" then prompt3 ++ expressionInstr e else prompt3
  | none => prompt3

/-- The full instruction block: the body followed by the background
replace-or-preserve line, chosen by the background sentinel. -/
def compositePrompt (poseInstruction : String)
    (top : Option GarmentRef) (bottom : Option GarmentRef)
    (expression : Option String) (background : Option String) : String :=
  let prompt4 := compositePromptBody poseInstruction top bottom expression
  match background with
  | some b =>
    if b ≠ "" ∧ b ≠ "Original Studio" then prompt4 ++ backgroundReplaceInstr b
    else prompt4 ++ backgroundPreserveInstr
  | none => prompt4 ++ backgroundPreserveInstr

/-- `generateCompositeImage`: builds the ordered part list of the composite
request.  `fetchPart` is the oracle standing for the `urlToFile`/`fileToPart`
IO round-trip that turns a garment reference into its inline-image part; the
base model image is parsed synchronously from its data URL exactly as in the
source.  The parts are pushed in source order — model image, conditional top
marker and image, conditional bottom marker and image, and finally the
instruction block (threaded through `compositePrompt`) as the last text part. -/
def generateCompositeImage (fetchPart : String → String → RequestPart)
    (baseModelUrl : String) (poseInstruction : String)
    (top : Option GarmentRef) (bottom : Option GarmentRef)
    (expression : Option String) (background : Option String) :
    Except String (List RequestPart) :=
  match dataUrlToPart baseModelUrl with
  | Except.error e => Except.error e
  | Except.ok modelImagePart =>
    let parts0 : List RequestPart := [modelImagePart]
    let parts1 :=
      match top with
      | some t => parts0 ++ [RequestPart.text topGarmentMarker, fetchPart t.url t.name]
      | none => parts0
    let parts2 :=
      match bottom with
      | some b => parts1 ++ [RequestPart.text bottomGarmentMarker, fetchPart b.url b.name]
      | none => parts1
    Except.ok (parts2
      ++ [RequestPart.text (compositePrompt poseInstruction top bottom expression background)])

/-! ## Categorization and validation -/

/-- Garment category: the TS union type `'top' | 'bottom'`. -/
inductive Category where
  | top
  | bottom
deriving DecidableEq

/-- `categorizeGarment`, as a function of the remote classifier's answer text:
normalize (trim + lowercase), accept exactly `top` or `bottom`, otherwise fail
with an error naming the normalized value. -/
def categorizeGarment (responseText : String) : Except String Category :=
  let category := jsToLower (jsTrim responseText)
  if category = "top" then Except.ok Category.top
  else if category = "bottom" then Except.ok Category.bottom
  else Except.error ("Could not categorize garment. Model returned: \"" ++ category ++ "\"")

/-- `validateInput`, as a function of the remote validator's answer text:
valid exactly when the answer normalizes to `yes`. -/
def validateInput (responseText : String) : Bool :=
  decide (jsToLower (jsTrim responseText) = "yes")

/-! ## Application state (staged-apply variant) -/

/-- A wardrobe item: identity, display name, image locator, category, optional
active-color override. -/
structure WardrobeItem where
  id : String
  name : String
  url : String
  category : Category
  activeColor : Option String := none
deriving DecidableEq

/-- The staged pending selection (`PendingChanges` in the source). -/
structure PendingChanges where
  top : Option WardrobeItem
  bottom : Option WardrobeItem
  expression : String
  background : String
  poseIndex : Nat
deriving DecidableEq

/-- The application state owned by the `App` component (staged-apply variant). -/
structure AppState where
  baseModelUrl : Option String
  displayImageUrl : Option String
  wornTop : Option WardrobeItem
  wornBottom : Option WardrobeItem
  currentExpression : String
  currentBackground : String
  currentPoseIndex : Nat
  pendingChanges : Option PendingChanges
  isLoading : Bool
  loadingMessage : String
  error : Option String
  wardrobe : List WardrobeItem
deriving DecidableEq

/-- The committed outfit of a state, packaged in the shape of `PendingChanges`
for the pending-vs-committed comparison. -/
def committedOf (s : AppState) : PendingChanges :=
  { top := s.wornTop
    bottom := s.wornBottom
    expression := s.currentExpression
    background := s.currentBackground
    poseIndex := s.currentPoseIndex }

/-- The fixed pose catalog (`POSE_INSTRUCTIONS`). -/
def POSE_INSTRUCTIONS : List String :=
  ["Full frontal view, hands on hips",
   "Slightly turned, 3/4 view",
   "Side profile view",
   "Jumping in the air, mid-action shot",
   "Walking towards camera",
   "Leaning against a wall"]

/-- Modelled from the spec: `getFriendlyErrorMessage` lives in `src/lib/utils`,
which is not included under `src/`; per spec section 7 it converts a caught
failure into a single user-facing message, falling back to the supplied default
when the failure carries no message.  It never sees the user's input value. -/
def getFriendlyErrorMessage (err : String) (fallback : String) : String :=
  if err = "" then fallback else err

/-- `handleApplyChanges`: guard on a truthy base model URL and a present pending
selection, then run the remote regeneration (its awaited outcome is the
`remoteResult` parameter: the data URL on success, the thrown message on
failure).  On success the displayed image and every committed field are set from
the pending values; on failure only the error message is set. -/
def handleApplyChanges (s : AppState) (remoteResult : Except String String) : AppState :=
  match s.baseModelUrl, s.pendingChanges with
  | some base, some pc =>
    if base = "" then s
    else
      let s1 := { s with error := none, isLoading := true, loadingMessage := "Applying your changes..." }
      match remoteResult with
      | Except.ok newImageUrl =>
        { s1 with
            displayImageUrl := some newImageUrl
            wornTop := pc.top
            wornBottom := pc.bottom
            currentExpression := pc.expression
            currentBackground := pc.background
            currentPoseIndex := pc.poseIndex
            isLoading := false
            loadingMessage := "" }
      | Except.error err =>
        { s1 with
            error := some (getFriendlyErrorMessage err ("Failed to update the image"))
            isLoading := false
            loadingMessage := "" }
  | _, _ => s

/-- A partial update to the pending selection, as passed to
`handlePendingChange` (`Partial<PendingChanges>`): an absent field leaves the
previous value untouched. -/
structure PendingUpdate where
  top : Option (Option WardrobeItem) := none
  bottom : Option (Option WardrobeItem) := none
  expression : Option String := none
  background : Option String := none
  poseIndex : Option Nat := none
deriving DecidableEq

/-- The spread `{ ...prev, ...updates }` of a partial update over the previous
pending selection. -/
def applyUpdate (prev : PendingChanges) (u : PendingUpdate) : PendingChanges :=
  { top := u.top.getD prev.top
    bottom := u.bottom.getD prev.bottom
    expression := u.expression.getD prev.expression
    background := u.background.getD prev.background
    poseIndex := u.poseIndex.getD prev.poseIndex }

/-- `handlePendingChange`: merge a partial update into the pending selection;
when no pending selection exists the state is unchanged. -/
def handlePendingChange (s : AppState) (u : PendingUpdate) : AppState :=
  { s with
      pendingChanges :=
        match s.pendingChanges with
        | some prev => some (applyUpdate prev u)
        | none => none }

/-- `handleGarmentCategorized`: dedup-by-identity insertion into the wardrobe
registry — unchanged when the identity already exists, appended otherwise. -/
def handleGarmentCategorized (s : AppState) (item : WardrobeItem) : AppState :=
  { s with
      wardrobe :=
        if (s.wardrobe.find? (fun i => decide (i.id = item.id))).isSome then s.wardrobe
        else s.wardrobe ++ [item] }

/-- `handleGarmentSelect`: stage the garment as the pending selection for its
category. -/
def handleGarmentSelect (s : AppState) (garmentInfo : WardrobeItem) : AppState :=
  match garmentInfo.category with
  | Category.top => handlePendingChange s { top := some (some garmentInfo) }
  | Category.bottom => handlePendingChange s { bottom := some (some garmentInfo) }

/-- `handleRemoveGarment`: clear the pending selection for a category. -/
def handleRemoveGarment (s : AppState) (category : Category) : AppState :=
  match category with
  | Category.top => handlePendingChange s { top := some none }
  | Category.bottom => handlePendingChange s { bottom := some none }

/-- `handleColorChange`: on a worn slot, replace the garment value with one
whose active color is cleared by the sentinel `original` and set by any other
color string; on an empty slot (or with no pending selection) do nothing. -/
def handleColorChange (s : AppState) (category : Category) (color : String) : AppState :=
  match s.pendingChanges with
  | none => s
  | some pc =>
    match category with
    | Category.top =>
      match pc.top with
      | some t =>
        handlePendingChange s
          { top := some (some { t with activeColor := if color = "original" then none else some color }) }
      | none => s
    | Category.bottom =>
      match pc.bottom with
      | some b =>
        handlePendingChange s
          { bottom := some (some { b with activeColor := if color = "original" then none else some color }) }
      | none => s

/-- `hasPendingChanges`: the pending-vs-committed diff over the seven
discriminators (top id / top color, bottom id / bottom color, expression,
background, pose index); false when no pending selection exists. -/
def hasPendingChanges (s : AppState) : Bool :=
  match s.pendingChanges with
  | none => false
  | some pc =>
    let topChanged :=
      decide (pc.top.map (fun i => i.id) ≠ s.wornTop.map (fun i => i.id))
        || decide (pc.top.bind (fun i => i.activeColor) ≠ s.wornTop.bind (fun i => i.activeColor))
    let bottomChanged :=
      decide (pc.bottom.map (fun i => i.id) ≠ s.wornBottom.map (fun i => i.id))
        || decide (pc.bottom.bind (fun i => i.activeColor) ≠ s.wornBottom.bind (fun i => i.activeColor))
    let expressionChanged := decide (pc.expression ≠ s.currentExpression)
    let backgroundChanged := decide (pc.background ≠ s.currentBackground)
    let poseChanged := decide (pc.poseIndex ≠ s.currentPoseIndex)
    topChanged || bottomChanged || expressionChanged || backgroundChanged || poseChanged

/-! ## Upload categorization flow and free-text validation flow -/

/-- `handleFileChange` in the wardrobe panel, after the image-type guard:
categorize the upload from the remote answer text; on success synthesize a new
item (identity `freshId`, modelling `custom-` plus the timestamp), insert it
into the registry and stage it as selected for its category; on failure leave
the state unchanged. -/
def handleFileChange (s : AppState) (responseText : String)
    (freshId : String) (fileName : String) (fileUrl : String) : AppState :=
  match categorizeGarment responseText with
  | Except.ok category =>
    let customGarmentInfo : WardrobeItem :=
      { id := freshId, name := fileName, url := fileUrl, category := category, activeColor := none }
    handleGarmentSelect (handleGarmentCategorized s customGarmentInfo) customGarmentInfo
  | Except.error _ => s

/-- The kind tag of a free-text validation request. -/
inductive InputKind where
  | expression
  | background
deriving DecidableEq

/-- The string form of the kind tag, as interpolated into messages. -/
def inputKindLabel (k : InputKind) : String :=
  match k with
  | InputKind.expression => "expression"
  | InputKind.background => "background"

/-- Outcome of `handleCustomSubmit`: no-op on blank input, applied value on a
valid answer, rejected with a surfaced message otherwise. -/
inductive SubmitOutcome where
  | noop
  | applied (value : String)
  | rejected (message : String)
deriving DecidableEq

/-- `handleCustomSubmit` in the scene panel: trim the input, skip when blank,
run the remote validation (its awaited answer or thrown failure is
`remoteAnswer`); a valid answer applies the trimmed value, an invalid answer is
rejected with a message naming the value, a thrown failure is rejected with the
friendly error message. -/
def handleCustomSubmit (input : String) (kind : InputKind)
    (remoteAnswer : Except String String) : SubmitOutcome :=
  let value := jsTrim input
  if value = "" then SubmitOutcome.noop
  else
    match remoteAnswer with
    | Except.ok answerText =>
      if validateInput answerText then SubmitOutcome.applied value
      else
        SubmitOutcome.rejected
          ("\x27" ++ value ++ "\x27 is not a valid " ++ inputKindLabel kind ++ ". Please try another.")
    | Except.error err =>
      SubmitOutcome.rejected (getFriendlyErrorMessage err ("Failed to validate " ++ inputKindLabel kind))

/-! ## Concrete sample values (used to instantiate theorems) -/

/-- A sample wardrobe item in the top category with an active color set. -/
def sampleTee : WardrobeItem :=
  { id := "gemini-tee", name := "Gemini Tee", url := "top-url",
    category := Category.top, activeColor := some ("#d94e4e") }

/-- A sample pending selection wearing `sampleTee` and nothing else. -/
def samplePending : PendingChanges :=
  { top := some sampleTee, bottom := none, expression := "Default",
    background := "Original Studio", poseIndex := 0 }

/-- The pending selection created at model finalization: both slots empty,
default expression, default background, pose 0. -/
def initialPending : PendingChanges :=
  { top := none, bottom := none, expression := "Default",
    background := "Original Studio", poseIndex := 0 }

/-- A sample application state right after model finalization, with
`samplePending` staged and nothing committed. -/
def sampleState : AppState :=
  { baseModelUrl := some ("data:image/png;base64,QUJD")
    displayImageUrl := some ("data:image/png;base64,QUJD")
    wornTop := none
    wornBottom := none
    currentExpression := "Default"
    currentBackground := "Original Studio"
    currentPoseIndex := 0
    pendingChanges := some samplePending
    isLoading := false
    loadingMessage := ""
    error := none
    wardrobe := [] }

/-- A sample candidate carrying only text, finish reason `STOP`. -/
def sampleCandidateNoImage : Candidate :=
  { content := some { parts := some [{ text := some ("no image here") }] }
    finishReason := some ("STOP") }

/-- A sample candidate carrying an image part, finish reason `SAFETY`. -/
def sampleCandidateImage : Candidate :=
  { content := some { parts := some [{ inlineData := some { mimeType := "image/jpeg", data := "QkI=" } }] }
    finishReason := some ("SAFETY") }

/-- A sample candidate with no content and a non-STOP finish reason. -/
def sampleCandidateSafety : Candidate :=
  { content := none, finishReason := some ("SAFETY") }

/-- A response whose first candidate has no image but whose second does. -/
def sampleLateImageResponse : GenerateContentResponse :=
  { candidates := some [sampleCandidateNoImage, sampleCandidateImage] }

/-- A response with no image anywhere, first finish reason `STOP`, and a
non-STOP finish reason only on the second candidate. -/
def sampleLateFinishResponse : GenerateContentResponse :=
  { candidates := some [sampleCandidateNoImage, sampleCandidateSafety]
    text := some ("no image returned") }

/-- A response carrying both an explicit block indicator and an image part. -/
def sampleBlockedResponse : GenerateContentResponse :=
  { promptFeedback := some { blockReason := some ("SAFETY"), blockReasonMessage := none }
    candidates := some [sampleCandidateImage] }

/-! ## Theorems -/

/-- Helper: `find?` by identity succeeds exactly when some element has the identity. -/
theorem find_id_isSome (w : List WardrobeItem) (item : WardrobeItem) :
    (w.find? (fun i => decide (i.id = item.id))).isSome = true ↔ ∃ i ∈ w, i.id = item.id := by
  rw [List.find?_isSome]
  simp

/-- C9: wardrobe registry insertion is idempotent under duplicate identity and
never errors: inserting an item whose identity already exists leaves the
registry unchanged (same list, hence same length and order); inserting a new
identity appends it at the end, preserving the insertion order of all existing
items; and a second insertion of the same item never changes the registry. -/
theorem wardrobe_insert_idempotent (s : AppState) (item : WardrobeItem) :
    ((∃ i ∈ s.wardrobe, i.id = item.id) →
      (handleGarmentCategorized s item).wardrobe = s.wardrobe)
    ∧ ((∀ i ∈ s.wardrobe, i.id ≠ item.id) →
      (handleGarmentCategorized s item).wardrobe = s.wardrobe ++ [item])
    ∧ (handleGarmentCategorized (handleGarmentCategorized s item) item).wardrobe
        = (handleGarmentCategorized s item).wardrobe := by
  refine ⟨?_, ?_, ?_⟩
  · intro h
    simp only [handleGarmentCategorized]
    rw [if_pos ((find_id_isSome s.wardrobe item).mpr h)]
  · intro h
    simp only [handleGarmentCategorized]
    rw [if_neg]
    intro hsome
    obtain ⟨i, hi, hid⟩ := (find_id_isSome s.wardrobe item).mp hsome
    exact h i hi hid
  · by_cases h : (s.wardrobe.find? (fun i => decide (i.id = item.id))).isSome = true
    · simp only [handleGarmentCategorized]
      rw [if_pos h, if_pos h]
    · simp only [handleGarmentCategorized]
      rw [if_neg h]
      rw [if_pos (by rw [List.find?_isSome]; exact ⟨item, by simp⟩)]

/-- Witness for C9 at a concrete registry and item. -/
theorem wardrobe_insert_idempotent_witness :
    ((handleGarmentCategorized
        { baseModelUrl := none, displayImageUrl := none, wornTop := none, wornBottom := none,
          currentExpression := "Default", currentBackground := "Original Studio",
          currentPoseIndex := 0, pendingChanges := none, isLoading := false,
          loadingMessage := "", error := none,
          wardrobe := [{ id := "gemini-tee", name := "Gemini Tee", url := "u", category := Category.top }] }
        { id := "gemini-tee", name := "Gemini Tee", url := "u", category := Category.top }).wardrobe
      = [{ id := "gemini-tee", name := "Gemini Tee", url := "u", category := Category.top }])
    ∧ ((handleGarmentCategorized
        { baseModelUrl := none, displayImageUrl := none, wornTop := none, wornBottom := none,
          currentExpression := "Default", currentBackground := "Original Studio",
          currentPoseIndex := 0, pendingChanges := none, isLoading := false,
          loadingMessage := "", error := none,
          wardrobe := [{ id := "gemini-tee", name := "Gemini Tee", url := "u", category := Category.top }] }
        { id := "custom-1", name := "New", url := "v", category := Category.bottom }).wardrobe
      = [{ id := "gemini-tee", name := "Gemini Tee", url := "u", category := Category.top },
         { id := "custom-1", name := "New", url := "v", category := Category.bottom }]) := by
  constructor
  · exact (wardrobe_insert_idempotent _ _).1 ⟨_, by simp, rfl⟩
  · exact (wardrobe_insert_idempotent _ _).2.1 (by intro i hi; simp at hi; subst hi; decide)

/-- C3: `hasPendingChanges` returns true exactly when one of the seven
discriminators differs — top identity, top active-color, bottom identity,
bottom active-color, expression, background, pose index; comparing empty slots
is equality and a present garment differs from an empty slot or another
identity via the identity discriminator; in particular every structurally
equal pending/committed pair diffs to false. -/
theorem hasPendingChanges_diff_spec (s : AppState) (pc : PendingChanges)
    (hpc : s.pendingChanges = some pc) :
    (hasPendingChanges s = true ↔
      (pc.top.map (fun i => i.id) ≠ s.wornTop.map (fun i => i.id)
        ∨ pc.top.bind (fun i => i.activeColor) ≠ s.wornTop.bind (fun i => i.activeColor)
        ∨ pc.bottom.map (fun i => i.id) ≠ s.wornBottom.map (fun i => i.id)
        ∨ pc.bottom.bind (fun i => i.activeColor) ≠ s.wornBottom.bind (fun i => i.activeColor)
        ∨ pc.expression ≠ s.currentExpression
        ∨ pc.background ≠ s.currentBackground
        ∨ pc.poseIndex ≠ s.currentPoseIndex))
    ∧ (pc = committedOf s → hasPendingChanges s = false) := by
  constructor
  · simp only [hasPendingChanges, hpc, Bool.or_eq_true, decide_eq_true_eq]
    tauto
  · intro heq
    have h1 : pc.top = s.wornTop := by rw [heq]; rfl
    have h2 : pc.bottom = s.wornBottom := by rw [heq]; rfl
    have h3 : pc.expression = s.currentExpression := by rw [heq]; rfl
    have h4 : pc.background = s.currentBackground := by rw [heq]; rfl
    have h5 : pc.poseIndex = s.currentPoseIndex := by rw [heq]; rfl
    simp [hasPendingChanges, hpc, h1, h2, h3, h4, h5]

/-- Witness for C3: a pending selection wearing a top over an empty committed
top diffs to true, and a structurally equal pending/committed pair diffs to
false. -/
theorem hasPendingChanges_diff_spec_witness :
    hasPendingChanges sampleState = true
    ∧ hasPendingChanges { sampleState with pendingChanges := some initialPending } = false := by
  constructor
  · exact (hasPendingChanges_diff_spec sampleState samplePending rfl).1.mpr (Or.inl (by decide))
  · exact (hasPendingChanges_diff_spec _ initialPending rfl).2 (by decide)

/-- C4: color-change semantics on the pending selection.  With a garment worn
in the slot, the sentinel `original` clears the active-color field and any
other color string replaces it, in both cases producing a new item value with
the same identity (indeed all other fields unchanged); with the slot empty the
operation returns the state unchanged — it never raises (it is a total
function) and never causes a garment to be worn. -/
theorem colorChange_semantics (s : AppState) (pc : PendingChanges) (color : String)
    (hpc : s.pendingChanges = some pc) :
    (∀ t, pc.top = some t →
      (handleColorChange s Category.top ("original")).pendingChanges
          = some { pc with top := some { t with activeColor := none } }
      ∧ (color ≠ "original" →
          (handleColorChange s Category.top color).pendingChanges
            = some { pc with top := some { t with activeColor := some color } }))
    ∧ (∀ b, pc.bottom = some b →
      (handleColorChange s Category.bottom ("original")).pendingChanges
          = some { pc with bottom := some { b with activeColor := none } }
      ∧ (color ≠ "original" →
          (handleColorChange s Category.bottom color).pendingChanges
            = some { pc with bottom := some { b with activeColor := some color } }))
    ∧ (pc.top = none → handleColorChange s Category.top color = s)
    ∧ (pc.bottom = none → handleColorChange s Category.bottom color = s) := by
  refine ⟨?_, ?_, ?_, ?_⟩
  · intro t ht
    constructor
    · simp only [handleColorChange, hpc, ht, if_pos rfl, handlePendingChange, applyUpdate]
      rfl
    · intro hc
      simp only [handleColorChange, hpc, ht, if_neg hc, handlePendingChange, applyUpdate]
      rfl
  · intro b hb
    constructor
    · simp only [handleColorChange, hpc, hb, if_pos rfl, handlePendingChange, applyUpdate]
      rfl
    · intro hc
      simp only [handleColorChange, hpc, hb, if_neg hc, handlePendingChange, applyUpdate]
      rfl
  · intro ht
    simp [handleColorChange, hpc, ht]
  · intro hb
    simp [handleColorChange, hpc, hb]

/-- Witness for C4: clearing the color of the worn sample top, and the no-op
of a color change on the empty bottom slot. -/
theorem colorChange_semantics_witness :
    (handleColorChange sampleState Category.top ("original")).pendingChanges
        = some { samplePending with top := some { sampleTee with activeColor := none } }
    ∧ handleColorChange sampleState Category.bottom ("#5a81e1") = sampleState := by
  constructor
  · exact ((colorChange_semantics sampleState samplePending ("#5a81e1") rfl).1 sampleTee rfl).1
  · exact (colorChange_semantics sampleState samplePending ("#5a81e1") rfl).2.2.2 rfl

/-- C1: the classifier checks its branches in a fixed order with the
block-indicator check first, and exactly one branch fires (the classifier is a
total function into a single outcome): every response carrying an explicit
block indicator — in particular one also carrying an image part — classifies
as Blocked, never as Success. -/
theorem classifier_block_precedence (resp : GenerateContentResponse) (r : String)
    (hblock : resp.promptFeedback.bind (fun pf => pf.blockReason) = some r)
    (hr : r ≠ "")
    (_himg : ((resp.candidates.getD []).findSome? candidateImage).isSome = true) :
    handleApiResponse resp
        = ApiOutcome.blocked ("Request was blocked. Reason: " ++ r ++ ". "
            ++ (resp.promptFeedback.bind (fun pf => pf.blockReasonMessage)).getD (""))
    ∧ ∀ d, handleApiResponse resp ≠ ApiOutcome.success d := by
  have ht : optTruthy (some r) = true := by simp [optTruthy, hr]
  constructor
  · simp [handleApiResponse, hblock, ht]
  · intro d h
    simp [handleApiResponse, hblock, ht] at h

/-- Witness for C1: a concrete response with block reason `SAFETY` and an
image-bearing candidate classifies as Blocked. -/
theorem classifier_block_precedence_witness :
    handleApiResponse sampleBlockedResponse
        = ApiOutcome.blocked ("Request was blocked. Reason: SAFETY. ")
    ∧ ∀ d, handleApiResponse sampleBlockedResponse ≠ ApiOutcome.success d := by
  have h := classifier_block_precedence sampleBlockedResponse ("SAFETY") rfl
    (by decide) (by decide)
  exact h

/-- C10: the image-part scan spans all candidates in order while the
finish-reason inspection reads only the first candidate.  A response whose
first candidate has no image but whose later candidate does classifies as
Success from that later candidate's first image part, media type preserved;
and with no image part anywhere and a first-candidate finish reason that is
absent or `STOP`, the outcome is the Empty/text fallback regardless of the
finish reasons of later candidates. -/
theorem classifier_candidate_scan (resp : GenerateContentResponse)
    (c0 : Candidate) (rest : List Candidate)
    (hc : resp.candidates = some (c0 :: rest))
    (hnb : optTruthy (resp.promptFeedback.bind (fun pf => pf.blockReason)) = false) :
    (∀ m d, candidateImage c0 = none →
      rest.findSome? candidateImage = some { mimeType := m, data := d } →
      handleApiResponse resp = ApiOutcome.success ("data:" ++ m ++ ";base64," ++ d))
    ∧ (candidateImage c0 = none → rest.findSome? candidateImage = none →
      (c0.finishReason = none ∨ c0.finishReason = some ("STOP")) →
      ∃ t, handleApiResponse resp = ApiOutcome.empty t) := by
  constructor
  · intro m d h0 hrest
    simp [handleApiResponse, hnb, hc, List.findSome?_cons, h0, hrest]
  · intro h0 hrest hfr
    rcases hfr with hfr | hfr
    · exact ⟨handleApiResponse.emptyMessage resp,
        by simp [handleApiResponse, hnb, hc, List.findSome?_cons, h0, hrest, hfr]⟩
    · exact ⟨handleApiResponse.emptyMessage resp,
        by simp [handleApiResponse, hnb, hc, List.findSome?_cons, h0, hrest, hfr]⟩

/-- Witness for C10: the image on the second candidate is found and its media
type preserved, and a non-STOP finish reason only on the second candidate
still falls through to the Empty outcome. -/
theorem classifier_candidate_scan_witness :
    handleApiResponse sampleLateImageResponse
        = ApiOutcome.success ("data:image/jpeg;base64,QkI=")
    ∧ ∃ t, handleApiResponse sampleLateFinishResponse = ApiOutcome.empty t := by
  constructor
  · exact (classifier_candidate_scan sampleLateImageResponse sampleCandidateNoImage
      [sampleCandidateImage] rfl rfl).1 ("image/jpeg") ("QkI=") (by decide) (by decide)
  · exact (classifier_candidate_scan sampleLateFinishResponse sampleCandidateNoImage
      [sampleCandidateSafety] rfl rfl).2 (by decide) (by decide) (Or.inr rfl)

/-- C7: garment categorization accepts exactly the labels normalizing to `top`
or `bottom`.  For an accepted label the upload flow inserts a new wardrobe item
with the freshly generated identity into the registry and simultaneously
stages it as the pending selection for its category; for any other label
categorization fails with an error naming the normalized returned value and
the whole state — in particular the registry — is unchanged. -/
theorem garment_categorization_flow (s : AppState) (pc : PendingChanges)
    (responseText freshId fileName fileUrl : String)
    (hpc : s.pendingChanges = some pc)
    (hfresh : ∀ i ∈ s.wardrobe, i.id ≠ freshId) :
    (jsToLower (jsTrim responseText) = "top" →
      (handleFileChange s responseText freshId fileName fileUrl).wardrobe
          = s.wardrobe ++ [{ id := freshId, name := fileName, url := fileUrl,
                             category := Category.top, activeColor := none }]
      ∧ (handleFileChange s responseText freshId fileName fileUrl).pendingChanges
          = some { pc with top := some { id := freshId, name := fileName, url := fileUrl,
                                         category := Category.top, activeColor := none } })
    ∧ (jsToLower (jsTrim responseText) = "bottom" →
      (handleFileChange s responseText freshId fileName fileUrl).wardrobe
          = s.wardrobe ++ [{ id := freshId, name := fileName, url := fileUrl,
                             category := Category.bottom, activeColor := none }]
      ∧ (handleFileChange s responseText freshId fileName fileUrl).pendingChanges
          = some { pc with bottom := some { id := freshId, name := fileName, url := fileUrl,
                                            category := Category.bottom, activeColor := none } })
    ∧ (jsToLower (jsTrim responseText) ≠ "top" → jsToLower (jsTrim responseText) ≠ "bottom" →
      categorizeGarment responseText
          = Except.error ("Could not categorize garment. Model returned: \""
              ++ jsToLower (jsTrim responseText) ++ "\"")
      ∧ handleFileChange s responseText freshId fileName fileUrl = s) := by
  have hfind : s.wardrobe.find? (fun i => decide (i.id = freshId)) = none := by
    rw [List.find?_eq_none]
    intro i hi
    simp [hfresh i hi]
  refine ⟨?_, ?_, ?_⟩
  · intro h
    have hcat : categorizeGarment responseText = Except.ok Category.top := by
      simp [categorizeGarment, h]
    constructor
    · simp [handleFileChange, hcat, handleGarmentCategorized, handleGarmentSelect,
        handlePendingChange, hfind]
    · simp [handleFileChange, hcat, handleGarmentCategorized, handleGarmentSelect,
        handlePendingChange, applyUpdate, hfind, hpc]
  · intro h
    have hcat : categorizeGarment responseText = Except.ok Category.bottom := by
      have : jsToLower (jsTrim responseText) ≠ "top" := by rw [h]; decide
      simp [categorizeGarment, h, this]
    constructor
    · simp [handleFileChange, hcat, handleGarmentCategorized, handleGarmentSelect,
        handlePendingChange, hfind]
    · simp [handleFileChange, hcat, handleGarmentCategorized, handleGarmentSelect,
        handlePendingChange, applyUpdate, hfind, hpc]
  · intro h1 h2
    have hcat : categorizeGarment responseText
        = Except.error ("Could not categorize garment. Model returned: \""
            ++ jsToLower (jsTrim responseText) ++ "\"") := by
      simp [categorizeGarment, h1, h2]
    exact ⟨hcat, by simp [handleFileChange, hcat]⟩

/-- Witness for C7: an uppercase `TOP` answer is accepted and staged; a
`jacket` answer fails with the naming error and leaves the state unchanged. -/
theorem garment_categorization_flow_witness :
    ((handleFileChange sampleState (" TOP ") ("custom-1700000000000") ("shirt.png") ("blob:shirt")).wardrobe
        = [{ id := "custom-1700000000000", name := "shirt.png", url := "blob:shirt",
             category := Category.top, activeColor := none }])
    ∧ (categorizeGarment ("jacket")
        = Except.error ("Could not categorize garment. Model returned: \"jacket\"")
      ∧ handleFileChange sampleState ("jacket") ("custom-1700000000000") ("shirt.png") ("blob:shirt")
          = sampleState) := by
  constructor
  · have h := (garment_categorization_flow sampleState samplePending (" TOP ")
      ("custom-1700000000000") ("shirt.png") ("blob:shirt") rfl (by simp [sampleState])).1 (by decide)
    exact h.1
  · exact (garment_categorization_flow sampleState samplePending ("jacket")
      ("custom-1700000000000") ("shirt.png") ("blob:shirt") rfl (by simp [sampleState])).2.2
      (by decide) (by decide)

/-- C8 (amended): answers normalizing to `yes` apply the trimmed input; any
other answer is rejected with a message naming the rejected value exactly; a
thrown transport failure is also rejected — the input is never applied — but
its surfaced message is the generic friendly error message built without the
input value. -/
theorem customSubmit_validation_semantics (input : String) (kind : InputKind)
    (hne : jsTrim input ≠ "") :
    (∀ answerText, jsToLower (jsTrim answerText) = "yes" →
      handleCustomSubmit input kind (Except.ok answerText) = SubmitOutcome.applied (jsTrim input))
    ∧ (∀ answerText, jsToLower (jsTrim answerText) ≠ "yes" →
      handleCustomSubmit input kind (Except.ok answerText)
          = SubmitOutcome.rejected ("\x27" ++ jsTrim input ++ "\x27 is not a valid "
              ++ inputKindLabel kind ++ ". Please try another.")
      ∧ ∃ pre post, handleCustomSubmit input kind (Except.ok answerText)
          = SubmitOutcome.rejected (pre ++ jsTrim input ++ post))
    ∧ (∀ err, handleCustomSubmit input kind (Except.error err)
        = SubmitOutcome.rejected
            (getFriendlyErrorMessage err ("Failed to validate " ++ inputKindLabel kind))) := by
  refine ⟨?_, ?_, ?_⟩
  · intro answerText hyes
    simp [handleCustomSubmit, hne, validateInput, hyes]
  · intro answerText hno
    have h1 : handleCustomSubmit input kind (Except.ok answerText)
        = SubmitOutcome.rejected ("\x27" ++ jsTrim input ++ "\x27 is not a valid "
            ++ inputKindLabel kind ++ ". Please try another.") := by
      simp [handleCustomSubmit, hne, validateInput, hno]
    refine ⟨h1, "\x27", "\x27 is not a valid " ++ inputKindLabel kind ++ ". Please try another.", ?_⟩
    rw [h1]
    simp [String.append_assoc]
  · intro err
    simp [handleCustomSubmit, hne]

/-- Witness for C8 (amended) at concrete inputs: a `no` answer for the
background `Mars colony in 2140` is rejected with a message naming the value
exactly, and a thrown failure is rejected with the friendly message. -/
theorem customSubmit_validation_semantics_witness :
    handleCustomSubmit ("Mars colony in 2140") InputKind.background (Except.ok ("no"))
        = SubmitOutcome.rejected ("\x27Mars colony in 2140\x27 is not a valid background. Please try another.")
    ∧ handleCustomSubmit ("Mars colony in 2140") InputKind.background (Except.error ("network error"))
        = SubmitOutcome.rejected ("network error") := by
  constructor
  · exact ((customSubmit_validation_semantics ("Mars colony in 2140") InputKind.background
      (by decide)).2.1 ("no") (by decide)).1
  · exact (customSubmit_validation_semantics ("Mars colony in 2140") InputKind.background
      (by decide)).2.2 ("network error")

/-- C8 counterexample: for a thrown transport failure the claim's "message
names the rejected value exactly" fails — the surfaced message at a concrete
failing call is `network error`, which does not contain the rejected value
`Mars colony in 2140` as a substring of any decomposition. -/
theorem customSubmit_transport_counterexample :
    handleCustomSubmit ("Mars colony in 2140") InputKind.background (Except.error ("network error"))
        = SubmitOutcome.rejected ("network error")
    ∧ ¬ ∃ pre post, ("network error" : String) = pre ++ "Mars colony in 2140" ++ post := by
  constructor
  · decide
  · rintro ⟨pre, post, h⟩
    have hlen := congrArg String.length h
    rw [String.length_append, String.length_append] at hlen
    have h1 : ("network error" : String).length = 13 := by decide
    have h2 : ("Mars colony in 2140" : String).length = 19 := by decide
    rw [h1, h2] at hlen
    omega

/-- C2: the commit performed by `handleApplyChanges` is atomic.  When the
remote regeneration succeeds, every committed field and the displayed image
reference are set from the pending values, so pending and committed are
structurally equal afterwards; when the remote call fails, neither any
committed field nor the displayed image changes and pending still holds the
attempted edit. -/
theorem applyChanges_atomic_commit (s : AppState) (base : String) (pc : PendingChanges)
    (hbase : s.baseModelUrl = some base) (hb : base ≠ "")
    (hpc : s.pendingChanges = some pc) :
    (∀ url,
      committedOf (handleApplyChanges s (Except.ok url)) = pc
      ∧ (handleApplyChanges s (Except.ok url)).pendingChanges = some pc
      ∧ (handleApplyChanges s (Except.ok url)).displayImageUrl = some url)
    ∧ (∀ err,
      committedOf (handleApplyChanges s (Except.error err)) = committedOf s
      ∧ (handleApplyChanges s (Except.error err)).displayImageUrl = s.displayImageUrl
      ∧ (handleApplyChanges s (Except.error err)).pendingChanges = some pc) := by
  constructor
  · intro url
    simp [handleApplyChanges, hbase, hpc, hb, committedOf]
  · intro err
    simp [handleApplyChanges, hbase, hpc, hb, committedOf]

/-- Witness for C2 at the sample state: a successful remote outcome commits the
pending selection, a failing one leaves committed state and image untouched. -/
theorem applyChanges_atomic_commit_witness :
    (committedOf (handleApplyChanges sampleState (Except.ok ("data:image/png;base64,Zg==")))
        = samplePending
      ∧ (handleApplyChanges sampleState (Except.ok ("data:image/png;base64,Zg=="))).pendingChanges
        = some samplePending)
    ∧ (committedOf (handleApplyChanges sampleState (Except.error ("Request was blocked.")))
        = committedOf sampleState
      ∧ (handleApplyChanges sampleState (Except.error ("Request was blocked."))).displayImageUrl
        = sampleState.displayImageUrl) := by
  have h := applyChanges_atomic_commit sampleState ("data:image/png;base64,QUJD") samplePending
    rfl (by decide) rfl
  exact ⟨⟨(h.1 _).1, (h.1 _).2.1⟩, ⟨(h.2 _).1, (h.2 _).2.1⟩⟩

/-- Helper for C5: the instruction block is the body followed by one background
line, so it always extends the body on the right. -/
theorem compositePrompt_eq_body_append (p : String)
    (top bottom : Option GarmentRef) (e bg : Option String) :
    ∃ post, compositePrompt p top bottom e bg
        = compositePromptBody p top bottom e ++ post := by
  rcases bg with _ | bv
  · exact ⟨backgroundPreserveInstr, rfl⟩
  · by_cases h : bv ≠ "" ∧ bv ≠ "Original Studio"
    · refine ⟨backgroundReplaceInstr bv, ?_⟩
      simp only [compositePrompt]
      rw [if_pos h]
    · refine ⟨backgroundPreserveInstr, ?_⟩
      simp only [compositePrompt]
      rw [if_neg h]

/-- Helper for C5: the instruction block always contains the pose line naming
the pose text verbatim. -/
theorem compositePrompt_contains_pose (p : String)
    (top bottom : Option GarmentRef) (e bg : Option String) :
    ∃ pre post, compositePrompt p top bottom e bg = pre ++ poseInstr p ++ post := by
  obtain ⟨post1, hpost1⟩ := compositePrompt_eq_body_append p top bottom e bg
  rcases e with _ | ev
  · exact ⟨compositePromptGarments top bottom, post1, by rw [hpost1]; rfl⟩
  · by_cases he : ev ≠ "" ∧ ev ≠ "Default"
    · refine ⟨compositePromptGarments top bottom, expressionInstr ev ++ post1, ?_⟩
      have hbody : compositePromptBody p top bottom (some ev)
          = compositePromptGarments top bottom ++ poseInstr p ++ expressionInstr ev := by
        simp only [compositePromptBody]
        rw [if_pos he]
      rw [hpost1, hbody, String.append_assoc]
    · refine ⟨compositePromptGarments top bottom, post1, ?_⟩
      have hbody : compositePromptBody p top bottom (some ev)
          = compositePromptGarments top bottom ++ poseInstr p := by
        simp only [compositePromptBody]
        rw [if_neg he]
      rw [hpost1, hbody]

/-- C5: for every resolved outfit state the builder emits parts in the order
base model image, then (if a top is worn) labeled marker and top image, then
(if a bottom is worn) labeled marker and bottom image, then the instruction
block last; the instruction block contains the pose line naming the exact
pose-catalog text at the resolved pose index, and ends with the background
replacement line when the background is a truthy non-default value and with
the preserve-original line otherwise. -/
theorem compositeImage_part_order (fetchPart : String → String → RequestPart)
    (baseModelUrl : String) (i : Nat) (hi : i < POSE_INSTRUCTIONS.length)
    (top bottom : Option GarmentRef) (expression background : Option String)
    (mp : RequestPart) (hbase : dataUrlToPart baseModelUrl = Except.ok mp) :
    generateCompositeImage fetchPart baseModelUrl (POSE_INSTRUCTIONS.get ⟨i, hi⟩)
        top bottom expression background
      = Except.ok ([mp]
          ++ (match top with
              | some t => [RequestPart.text topGarmentMarker, fetchPart t.url t.name]
              | none => [])
          ++ (match bottom with
              | some b => [RequestPart.text bottomGarmentMarker, fetchPart b.url b.name]
              | none => [])
          ++ [RequestPart.text
                (compositePrompt (POSE_INSTRUCTIONS.get ⟨i, hi⟩) top bottom expression background)])
    ∧ (∃ pre post,
        compositePrompt (POSE_INSTRUCTIONS.get ⟨i, hi⟩) top bottom expression background
          = pre ++ poseInstr (POSE_INSTRUCTIONS.get ⟨i, hi⟩) ++ post)
    ∧ (background = none →
        ∃ pre, compositePrompt (POSE_INSTRUCTIONS.get ⟨i, hi⟩) top bottom expression background
          = pre ++ backgroundPreserveInstr)
    ∧ (∀ b, background = some b → ¬(b ≠ "" ∧ b ≠ "Original Studio") →
        ∃ pre, compositePrompt (POSE_INSTRUCTIONS.get ⟨i, hi⟩) top bottom expression background
          = pre ++ backgroundPreserveInstr)
    ∧ (∀ b, background = some b → (b ≠ "" ∧ b ≠ "Original Studio") →
        ∃ pre, compositePrompt (POSE_INSTRUCTIONS.get ⟨i, hi⟩) top bottom expression background
          = pre ++ backgroundReplaceInstr b) := by
  refine ⟨?_, compositePrompt_contains_pose _ _ _ _ _, ?_, ?_, ?_⟩
  · rcases top with _ | t <;> rcases bottom with _ | b <;>
      simp [generateCompositeImage, hbase, List.append_assoc]
  · intro hbg
    subst hbg
    exact ⟨compositePromptBody (POSE_INSTRUCTIONS.get ⟨i, hi⟩) top bottom expression, rfl⟩
  · intro b hbg hb
    subst hbg
    refine ⟨compositePromptBody (POSE_INSTRUCTIONS.get ⟨i, hi⟩) top bottom expression, ?_⟩
    simp only [compositePrompt]
    rw [if_neg hb]
  · intro b hbg hb
    subst hbg
    refine ⟨compositePromptBody (POSE_INSTRUCTIONS.get ⟨i, hi⟩) top bottom expression, ?_⟩
    simp only [compositePrompt]
    rw [if_pos hb]

/-- Witness for C5: the concrete sample outfit — top worn, no bottom, custom
expression and background — produces the base image, marker, top image and
instruction block in order. -/
theorem compositeImage_part_order_witness :
    generateCompositeImage (fun u n => RequestPart.text (u ++ n))
        ("data:image/png;base64,QUJD") (POSE_INSTRUCTIONS.get ⟨0, by decide⟩)
        (some { url := "top-url", name := "Gemini Tee", activeColor := some ("#d94e4e") })
        none (some ("Happy")) (some ("Beach at Sunset"))
      = Except.ok ([RequestPart.inlineData ("image/png") ("QUJD")]
          ++ [RequestPart.text topGarmentMarker, RequestPart.text ("top-urlGemini Tee")]
          ++ []
          ++ [RequestPart.text
                (compositePrompt (POSE_INSTRUCTIONS.get ⟨0, by decide⟩)
                  (some { url := "top-url", name := "Gemini Tee", activeColor := some ("#d94e4e") })
                  none (some ("Happy")) (some ("Beach at Sunset")))]) := by
  exact (compositeImage_part_order (fun u n => RequestPart.text (u ++ n))
    ("data:image/png;base64,QUJD") 0 (by decide)
    (some { url := "top-url", name := "Gemini Tee", activeColor := some ("#d94e4e") })
    none (some ("Happy")) (some ("Beach at Sunset"))
    (RequestPart.inlineData ("image/png") ("QUJD")) rfl).1

/-- C6: the composite request builder is deterministic — it is a pure function
of the fetch oracle, base image reference, pose instruction, garments with
their active colors, expression and background, so equal inputs produce
byte-identical instruction text and identical part ordering. -/
theorem compositeImage_deterministic (f g : String → String → RequestPart)
    (b b2 p p2 : String) (t t2 bo bo2 : Option GarmentRef) (e e2 bg bg2 : Option String)
    (hf : f = g) (hb : b = b2) (hp : p = p2) (ht : t = t2) (hbo : bo = bo2)
    (he : e = e2) (hbg : bg = bg2) :
    generateCompositeImage f b p t bo e bg = generateCompositeImage g b2 p2 t2 bo2 e2 bg2 := by
  subst hf; subst hb; subst hp; subst ht; subst hbo; subst he; subst hbg; rfl

/-- Witness for C6 at concrete equal inputs. -/
theorem compositeImage_deterministic_witness :
    generateCompositeImage (fun u n => RequestPart.text (u ++ n))
        ("data:image/png;base64,QUJD") ("Side profile view")
        (some { url := "top-url", name := "Gemini Tee", activeColor := none })
        none (some ("Default")) (some ("Original Studio"))
      = generateCompositeImage (fun u n => RequestPart.text (u ++ n))
        ("data:image/png;base64,QUJD") ("Side profile view")
        (some { url := "top-url", name := "Gemini Tee", activeColor := none })
        none (some ("Default")) (some ("Original Studio")) :=
  compositeImage_deterministic _ _ _ _ _ _ _ _ _ _ _ _ _ _
    rfl rfl rfl rfl rfl rfl rfl
